import Mathlib

/-!
Verification of the PWR supply-configuration and voltage-scaling sequencer:
a shallow embedding of `src/pwr.rs` (stm32h7xx-hal power configuration).

The Rust module configures the PWR unit: a builder (`Pwr`) selects a VCORE
supply strategy, and `freeze` commits it to the write-once lower byte of CR3,
verifies the commit by reading CR3 back, polls readiness status bits, raises
the voltage scale via D3CR, and optionally enables overdrive.

Modelling conventions:
* Registers are structures of named fields; remaining bits are a `rest : Nat`.
* `modify` on a register is a read event followed by a write event of the
  transformed value (svd2rust semantics: read-modify-write of the whole
  register); `write` writes the reset value with the given fields overridden.
* The hardware is a state `Hw` where reads return the stored value; the
  write-once behaviour of CR3's lower byte is modelled by a `cr3_locked` flag:
  when set, CR3 writes leave the stored value unchanged (the bits were already
  committed earlier in this power cycle).
* The read-only status bits ACTVOSRDY (CSR1) and VOSRDY (D3CR) are driven by
  oracle sequences: the n-th poll of a loop observes the n-th element of the
  corresponding sequence. Busy-wait loops are given explicit fuel; running out
  of fuel models the loop still spinning (`Outcome.hang`).
* Rust `assert!(cond, msg)` becomes an `Except String` error carrying `msg`;
  the panic aborts `freeze` (`Outcome.panic`).
* Feature flags: `freeze` models the `dualcore` + `revision_v` build (the one
  with supply configuration and `vos0`); `freezeSingle` models the
  `singlecore` + `revision_v` build.
-/

/-- SMPS Supply Configuration - Dual Core parts (enum `SupplyConfiguration`). -/
inductive SupplyConfiguration
  | Default
  | LDOSupply
  | DirectSMPS
  | SMPSFeedsIntoLDO1V8
  | SMPSFeedsIntoLDO2V5
  | Bypass
deriving DecidableEq, Repr

/-- Voltage Scale (enum `VoltageScale`). -/
inductive VoltageScale
  | Scale0
  | Scale1
  | Scale2
  | Scale3
deriving DecidableEq, Repr

/-- The constrained PWR peripheral (struct `Pwr`): the supply-strategy
selector (`dualcore`) and the overdrive request flag (`revision_v`).
The register-block handle `rb` is modelled separately as the `Hw` state. -/
structure Pwr where
  supply_configuration : SupplyConfiguration
  enable_vos0 : Bool
deriving DecidableEq, Repr

/-- The method `PwrExt::constrain`: initial selector (Default strategy, no
overdrive request). -/
def constrain : Pwr :=
  { supply_configuration := .Default, enable_vos0 := false }

/-- The PWR.CR3 register, by named fields. `sdlevel` is the two-bit SDLEVEL
field; `rest` stands for all remaining bits of the register. -/
structure CR3 where
  bypass : Bool
  ldoen : Bool
  sden : Bool
  sdlevel : Nat
  scuen : Bool
  rest : Nat
deriving DecidableEq, Repr

/-- Hardware state seen by the sequencer: the CR3 register, the write-once
lock on its lower byte (set when the supply bits were already committed since
the last power-on reset), and the written part of D3CR (the VOS field and the
remaining writable bits). -/
structure Hw where
  cr3 : CR3
  cr3_locked : Bool
  d3cr_vos : Nat
  d3cr_rest : Nat
deriving DecidableEq, Repr

/-- A CR3 write: ignored by the hardware when the write-once lower byte is
already locked, stored otherwise. -/
def Hw.writeCR3 (hw : Hw) (v : CR3) : Hw :=
  if hw.cr3_locked then hw else { hw with cr3 := v }

/-- Register-access events, in program order. Reads and polls record the value
observed; writes record the value driven onto the bus. -/
inductive Event
  | readCR3 (v : CR3)
  | writeCR3 (v : CR3)
  | pollActvosrdy (b : Bool)
  | writeD3CR (vos : Nat) (rest : Nat)
  | pollVosrdy (b : Bool)
  | writeRCC_syscfgen
  | writeSYSCFG_oden
deriving DecidableEq, Repr

/-- Oracle sequences for the read-only status bits: the n-th read of a given
busy-wait loop observes the n-th element of its sequence. -/
structure Oracles where
  actSeq : Nat → Bool
  vosSeq : Nat → Bool
  odSeq : Nat → Bool

/-- Outcome of a `freeze` call: normal return, a panic with its message, or
still spinning in a busy-wait loop when the fuel runs out. -/
inductive Outcome
  | ok (v : VoltageScale)
  | panic (msg : String)
  | hang
deriving DecidableEq, Repr

/-- The fixed assertion message of `verify_supply_configuration`. -/
def cr3VerifyError : String :=
  "Values in lower byte of PWR.CR3 do not match the configured power mode. These values can only be set once for each POR (Power-on-Reset). Try removing power to your board."

/-- The closure passed to `cr3.modify` in `freeze` (dualcore): the new CR3
value as a function of the value read, per supply configuration. -/
def cr3WritePattern (c : SupplyConfiguration) (r : CR3) : CR3 :=
  match c with
  | .LDOSupply => { r with sden := false, ldoen := true }
  | .DirectSMPS => { r with sden := true, ldoen := false }
  | .SMPSFeedsIntoLDO1V8 => { r with sden := true, ldoen := true, sdlevel := 1 }
  | .SMPSFeedsIntoLDO2V5 => { r with sden := true, ldoen := true, sdlevel := 2 }
  | .Bypass => { r with sden := false, ldoen := false, bypass := true }
  | .Default => r

/-- The write phase of `freeze` (dualcore): `self.rb.cr3.modify(...)`, i.e. a
read of CR3 followed by a write of the transformed value. -/
def writePhase (p : Pwr) (hw : Hw) : Hw × List Event :=
  let r0 := hw.cr3
  let w := cr3WritePattern p.supply_configuration r0
  (hw.writeCR3 w, [.readCR3 r0, .writeCR3 w])

/-- The method `Pwr::verify_supply_configuration`: each `assert!` reads CR3
afresh and panics with `cr3VerifyError` when its condition fails. Returns the
result and the CR3 reads performed (reads stop at the first failing
assertion). -/
def verify_supply_configuration (p : Pwr) (hw : Hw) :
    Except String Unit × List Event :=
  let r := hw.cr3
  let e := cr3VerifyError
  match p.supply_configuration with
  | .LDOSupply =>
      if r.sden then (.error e, [.readCR3 r])
      else if !r.ldoen then (.error e, [.readCR3 r, .readCR3 r])
      else (.ok (), [.readCR3 r, .readCR3 r])
  | .DirectSMPS =>
      if !r.sden then (.error e, [.readCR3 r])
      else if r.ldoen then (.error e, [.readCR3 r, .readCR3 r])
      else (.ok (), [.readCR3 r, .readCR3 r])
  | .SMPSFeedsIntoLDO1V8 =>
      if !r.sden then (.error e, [.readCR3 r])
      else if r.ldoen then (.error e, [.readCR3 r, .readCR3 r])
      else if !(r.sdlevel == 1) then (.error e, [.readCR3 r, .readCR3 r, .readCR3 r])
      else (.ok (), [.readCR3 r, .readCR3 r, .readCR3 r])
  | .SMPSFeedsIntoLDO2V5 =>
      if !r.sden then (.error e, [.readCR3 r])
      else if r.ldoen then (.error e, [.readCR3 r, .readCR3 r])
      else if !(r.sdlevel == 2) then (.error e, [.readCR3 r, .readCR3 r, .readCR3 r])
      else (.ok (), [.readCR3 r, .readCR3 r, .readCR3 r])
  | .Bypass =>
      if r.sden then (.error e, [.readCR3 r])
      else if r.ldoen then (.error e, [.readCR3 r, .readCR3 r])
      else if !r.bypass then (.error e, [.readCR3 r, .readCR3 r, .readCR3 r])
      else (.ok (), [.readCR3 r, .readCR3 r, .readCR3 r])
  | .Default => (.ok (), [])

/-- A busy-wait loop `while bit_is_clear {}` reading a status-bit oracle from
index `i` with the given fuel: returns the observed values (ending with the
first `true`) and whether the loop completed within the fuel. -/
def pollSeq (seq : Nat → Bool) : Nat → Nat → List Bool × Bool
  | _, 0 => ([], false)
  | i, f + 1 =>
      if seq i then ([true], true)
      else
        let p := pollSeq seq (i + 1) f
        (false :: p.1, p.2)

/-- The code of `freeze` after the verify phase, shared verbatim by the
single- and dual-core builds: ACTVOSRDY wait on CSR1, D3CR scale-up
(`d3cr.write`, so the other writable bits of D3CR take the reset value 0),
VOSRDY wait, and the optional `revision_v` overdrive escalation (enable the
SYSCFG clock in RCC.APB4ENR, set SYSCFG.PWRCR.ODEN, wait for VOSRDY again).
Takes the hardware state after the write phase; returns the outcome, the
final hardware state, and the events it performs. -/
def scaleSeq (en0 : Bool) (hw1 : Hw) (g : Oracles) (fuel : Nat) :
    Outcome × Hw × List Event :=
  let p1 := pollSeq g.actSeq 0 fuel
  let t2 := p1.1.map Event.pollActvosrdy
  if p1.2 then
    let hw2 := { hw1 with d3cr_vos := 3, d3cr_rest := 0 }
    let t3 := t2 ++ [Event.writeD3CR 3 0]
    let p2 := pollSeq g.vosSeq 0 fuel
    let t4 := t3 ++ p2.1.map Event.pollVosrdy
    if p2.2 then
      if en0 then
        let t5 := t4 ++ [Event.writeRCC_syscfgen, Event.writeSYSCFG_oden]
        let p3 := pollSeq g.odSeq 0 fuel
        let t6 := t5 ++ p3.1.map Event.pollVosrdy
        if p3.2 then (.ok .Scale0, hw2, t6) else (.hang, hw2, t6)
      else (.ok .Scale1, hw2, t4)
    else (.hang, hw2, t4)
  else (.hang, hw1, t2)

/-- The method `Pwr::freeze` for the `dualcore` + `revision_v` build: CR3
write phase, verify phase (panic aborts the call), then the scale sequence.
Returns the outcome, the final hardware state, and the event trace up to
return, panic, or fuel exhaustion. -/
def freeze (p : Pwr) (hw : Hw) (g : Oracles) (fuel : Nat) :
    Outcome × Hw × List Event :=
  let wp := writePhase p hw
  let vr := verify_supply_configuration p wp.1
  match vr.1 with
  | .error e => (.panic e, wp.1, wp.2 ++ vr.2)
  | .ok _ =>
      let s := scaleSeq p.enable_vos0 wp.1 g fuel
      (s.1, s.2.1, (wp.2 ++ vr.2) ++ s.2.2)

/-- The closure passed to `cr3.modify` in `freeze` (singlecore):
`scuen` set, `ldoen` set, `bypass` cleared. -/
def cr3WriteSingle (r : CR3) : CR3 :=
  { r with scuen := true, ldoen := true, bypass := false }

/-- The method `Pwr::freeze` for the `singlecore` + `revision_v` build: the
CR3 modify uses the fixed single-core pattern, there is no supply
configuration and no verify phase; the rest of the sequence is as in the
dual-core build. -/
def freezeSingle (enable_vos0 : Bool) (hw : Hw) (g : Oracles) (fuel : Nat) :
    Outcome × Hw × List Event :=
  let w := cr3WriteSingle hw.cr3
  let s := scaleSeq enable_vos0 (hw.writeCR3 w) g fuel
  (s.1, s.2.1, [Event.readCR3 hw.cr3, Event.writeCR3 w] ++ s.2.2)

/-- The builder methods generated by `supply_configuration_setter!` and
`Pwr::vos0`, in the same instrumented form as `freeze`: each takes the
hardware state and returns the new selector, the (untouched) hardware state,
and the (empty) event trace — the Rust bodies perform a single field
assignment and no register access. -/
def Pwr.ldo (p : Pwr) (hw : Hw) : Pwr × Hw × List Event :=
  ({ p with supply_configuration := .LDOSupply }, hw, [])

def Pwr.smps (p : Pwr) (hw : Hw) : Pwr × Hw × List Event :=
  ({ p with supply_configuration := .DirectSMPS }, hw, [])

def Pwr.bypass (p : Pwr) (hw : Hw) : Pwr × Hw × List Event :=
  ({ p with supply_configuration := .Bypass }, hw, [])

def Pwr.smps_1v8_feeds_ldo (p : Pwr) (hw : Hw) : Pwr × Hw × List Event :=
  ({ p with supply_configuration := .SMPSFeedsIntoLDO1V8 }, hw, [])

def Pwr.smps_2v5_feeds_ldo (p : Pwr) (hw : Hw) : Pwr × Hw × List Event :=
  ({ p with supply_configuration := .SMPSFeedsIntoLDO2V5 }, hw, [])

def Pwr.vos0 (p : Pwr) (hw : Hw) : Pwr × Hw × List Event :=
  ({ p with enable_vos0 := true }, hw, [])

/-- Mirror hardware: CR3 holds an arbitrary benign value and the write-once
byte is not locked, so reads return exactly what was last written. -/
def hwMirror : Hw :=
  { cr3 := { bypass := false, ldoen := false, sden := false, sdlevel := 0,
             scuen := false, rest := 0 },
    cr3_locked := false, d3cr_vos := 0, d3cr_rest := 0 }

/-- Oracles whose status bits are set from the first poll on. -/
def gReady : Oracles :=
  { actSeq := fun _ => true, vosSeq := fun _ => true, odSeq := fun _ => true }

/-- Selector for the LDO supply strategy, no overdrive. -/
def pLdo : Pwr := { supply_configuration := .LDOSupply, enable_vos0 := false }

/-- Selector for the Bypass supply strategy, no overdrive. -/
def pBypassSel : Pwr := { supply_configuration := .Bypass, enable_vos0 := false }

/-- Selector for the SMPS-feeds-LDO-at-1.8V strategy, no overdrive. -/
def pSmps1v8 : Pwr := { supply_configuration := .SMPSFeedsIntoLDO1V8, enable_vos0 := false }

/-- Selector for the SMPS-feeds-LDO-at-2.5V strategy, no overdrive. -/
def pSmps2v5 : Pwr := { supply_configuration := .SMPSFeedsIntoLDO2V5, enable_vos0 := false }

/-- Selector left at the Default (unconfigured) strategy, no overdrive. -/
def pDefaultSel : Pwr := { supply_configuration := .Default, enable_vos0 := false }

/-- Hardware whose write-once CR3 byte was already committed this power cycle
with SDEN set (and LDOEN set): new CR3 writes are ignored. -/
def hwLockedSden : Hw :=
  { cr3 := { bypass := false, ldoen := true, sden := true, sdlevel := 0,
             scuen := false, rest := 0 },
    cr3_locked := true, d3cr_vos := 0, d3cr_rest := 0 }

/-- Hardware whose write-once CR3 byte was already committed this power cycle
with all supply bits clear: new CR3 writes are ignored. -/
def hwLockedClear : Hw :=
  { cr3 := { bypass := false, ldoen := false, sden := false, sdlevel := 0,
             scuen := false, rest := 0 },
    cr3_locked := true, d3cr_vos := 0, d3cr_rest := 0 }

/-- Mirror hardware whose D3CR initially holds nonzero writable bits
(`d3cr_rest = 5`, VOS = 1). -/
def hwRest5 : Hw :=
  { cr3 := { bypass := false, ldoen := false, sden := false, sdlevel := 0,
             scuen := false, rest := 0 },
    cr3_locked := false, d3cr_vos := 1, d3cr_rest := 5 }

/-- A busy-wait loop that completed ends with an observation of the bit set:
the last value it read is `true`. -/
theorem pollSeq_done_getLast (seq : Nat → Bool) :
    ∀ fuel i, (pollSeq seq i fuel).2 = true →
      (pollSeq seq i fuel).1.getLast? = some true := by
  intro fuel
  induction fuel with
  | zero => intro i h; simp [pollSeq] at h
  | succ f ih =>
      intro i h
      by_cases hs : seq i
      · simp [pollSeq, hs]
      · simp only [pollSeq, hs, if_false, Bool.false_eq_true] at h ⊢
        have hlast := ih (i + 1) h
        cases hl : (pollSeq seq (i + 1) f).1 with
        | nil => rw [hl] at hlast; simp at hlast
        | cons a l =>
            rw [hl] at hlast
            rw [List.getLast?_cons_cons]
            exact hlast

/-- If the polled bit is set at some index within the fuel, the busy-wait
loop completes. -/
theorem pollSeq_done_of_exists (seq : Nat → Bool) :
    ∀ fuel i, (∃ n, n < fuel ∧ seq (i + n) = true) →
      (pollSeq seq i fuel).2 = true := by
  intro fuel
  induction fuel with
  | zero => rintro i ⟨n, hn, -⟩; omega
  | succ f ih =>
      rintro i ⟨n, hn, hs⟩
      by_cases h0 : seq i
      · simp [pollSeq, h0]
      · simp only [pollSeq, h0, if_false]
        apply ih
        rcases n with - | m
        · rw [Nat.add_zero] at hs; exact absurd hs (by simpa using h0)
        · exact ⟨m, by omega, by rw [show i + 1 + m = i + (m + 1) by omega]; exact hs⟩

/-- Every failing assertion of `verify_supply_configuration` carries the one
fixed error message. -/
theorem verify_error_eq (p : Pwr) (hw : Hw) (m : String)
    (h : (verify_supply_configuration p hw).1 = .error m) : m = cr3VerifyError := by
  rcases p with ⟨c, b⟩
  cases c <;> simp only [verify_supply_configuration] at h <;>
    first
      | (split_ifs at h <;> simp_all)
      | simp_all

/-- The verify phase performs only CR3 reads. -/
theorem verify_events_read (p : Pwr) (hw : Hw) (e : Event)
    (h : e ∈ (verify_supply_configuration p hw).2) : ∃ r, e = .readCR3 r := by
  rcases p with ⟨c, b⟩
  cases c <;> simp only [verify_supply_configuration] at h <;>
    first
      | (split_ifs at h <;> simp_all)
      | simp_all

/-- The scale sequence either returns the scale determined by the overdrive
flag or hangs in a poll loop; it has no other outcome. -/
theorem scaleSeq_classify (en0 : Bool) (hw1 : Hw) (g : Oracles) (fuel : Nat) :
    (scaleSeq en0 hw1 g fuel).1 = .ok (if en0 then .Scale0 else .Scale1)
    ∨ (scaleSeq en0 hw1 g fuel).1 = .hang := by
  cases hd1 : (pollSeq g.actSeq 0 fuel).2 <;>
  cases hd2 : (pollSeq g.vosSeq 0 fuel).2 <;>
  cases hd3 : (pollSeq g.odSeq 0 fuel).2 <;>
  cases en0 <;>
  simp [scaleSeq, hd1, hd2, hd3]

/-- When the scale sequence returns a scale, it is Scale0 exactly when the
overdrive flag was set and Scale1 otherwise. -/
theorem scaleSeq_ok_result (en0 : Bool) (hw1 : Hw) (g : Oracles) (fuel : Nat)
    (v : VoltageScale) (h : (scaleSeq en0 hw1 g fuel).1 = .ok v) :
    v = if en0 then .Scale0 else .Scale1 := by
  rcases scaleSeq_classify en0 hw1 g fuel with hc | hc <;> rw [h] at hc <;> simp_all

/-- The scale sequence never panics. -/
theorem scaleSeq_not_panic (en0 : Bool) (hw1 : Hw) (g : Oracles) (fuel : Nat)
    (msg : String) (h : (scaleSeq en0 hw1 g fuel).1 = .panic msg) : False := by
  rcases scaleSeq_classify en0 hw1 g fuel with hc | hc <;> rw [h] at hc <;> simp_all

/-- When the scale sequence returns, the D3CR write has taken effect: VOS
holds 0b11 and the remaining writable bits hold the reset value 0. -/
theorem scaleSeq_ok_hw (en0 : Bool) (hw1 : Hw) (g : Oracles) (fuel : Nat)
    (v : VoltageScale) (h : (scaleSeq en0 hw1 g fuel).1 = .ok v) :
    (scaleSeq en0 hw1 g fuel).2.1.d3cr_vos = 3
    ∧ (scaleSeq en0 hw1 g fuel).2.1.d3cr_rest = 0 := by
  cases hd1 : (pollSeq g.actSeq 0 fuel).2 <;>
  cases hd2 : (pollSeq g.vosSeq 0 fuel).2 <;>
  cases hd3 : (pollSeq g.odSeq 0 fuel).2 <;>
  cases en0 <;>
  simp_all [scaleSeq]

/-- When the scale sequence returns, its event list is the ACTVOSRDY polls
(ending with an observation of the bit set) followed by the D3CR write and
the remaining steps. -/
theorem scaleSeq_ok_trace (en0 : Bool) (hw1 : Hw) (g : Oracles) (fuel : Nat)
    (v : VoltageScale) (h : (scaleSeq en0 hw1 g fuel).1 = .ok v) :
    ∃ (obs : List Bool) (rest : List Event), (scaleSeq en0 hw1 g fuel).2.2
        = obs.map Event.pollActvosrdy ++ Event.writeD3CR 3 0 :: rest
      ∧ obs.getLast? = some true := by
  cases hd1 : (pollSeq g.actSeq 0 fuel).2 with
  | false => simp_all [scaleSeq]
  | true =>
    have hlast := pollSeq_done_getLast g.actSeq fuel 0 hd1
    cases hd2 : (pollSeq g.vosSeq 0 fuel).2 with
    | false => simp_all [scaleSeq]
    | true =>
      cases en0 with
      | false =>
          refine ⟨(pollSeq g.actSeq 0 fuel).1,
            (pollSeq g.vosSeq 0 fuel).1.map Event.pollVosrdy, ?_, hlast⟩
          simp [scaleSeq, hd1, hd2]
      | true =>
          cases hd3 : (pollSeq g.odSeq 0 fuel).2 with
          | false => simp_all [scaleSeq]
          | true =>
              refine ⟨(pollSeq g.actSeq 0 fuel).1,
                (pollSeq g.vosSeq 0 fuel).1.map Event.pollVosrdy
                  ++ [Event.writeRCC_syscfgen, Event.writeSYSCFG_oden]
                  ++ (pollSeq g.odSeq 0 fuel).1.map Event.pollVosrdy, ?_, hlast⟩
              simp [scaleSeq, hd1, hd2, hd3]

/-- When each polled status bit becomes set within the fuel, the scale
sequence completes and returns the scale determined by the overdrive flag. -/
theorem scaleSeq_done (en0 : Bool) (hw1 : Hw) (g : Oracles) (fuel : Nat)
    (h1 : ∃ n, n < fuel ∧ g.actSeq n = true)
    (h2 : ∃ n, n < fuel ∧ g.vosSeq n = true)
    (h3 : ∃ n, n < fuel ∧ g.odSeq n = true) :
    (scaleSeq en0 hw1 g fuel).1 = .ok (if en0 then .Scale0 else .Scale1) := by
  have d1 := pollSeq_done_of_exists g.actSeq fuel 0 (by simpa using h1)
  have d2 := pollSeq_done_of_exists g.vosSeq fuel 0 (by simpa using h2)
  have d3 := pollSeq_done_of_exists g.odSeq fuel 0 (by simpa using h3)
  cases en0 <;> simp [scaleSeq, d1, d2, d3]

/-- Every D3CR write the scale sequence performs carries VOS = 0b11 and zero
for the remaining writable bits. -/
theorem scaleSeq_writeD3CR_mem (en0 : Bool) (hw1 : Hw) (g : Oracles) (fuel : Nat)
    (a b : Nat) (h : Event.writeD3CR a b ∈ (scaleSeq en0 hw1 g fuel).2.2) :
    a = 3 ∧ b = 0 := by
  cases hd1 : (pollSeq g.actSeq 0 fuel).2 <;>
  cases hd2 : (pollSeq g.vosSeq 0 fuel).2 <;>
  cases hd3 : (pollSeq g.odSeq 0 fuel).2 <;>
  cases en0 <;>
  simp_all [scaleSeq, List.mem_append, List.mem_map]

/-- When the verify phase passes, `freeze` is the write phase, the verify
reads, and the scale sequence, with the traces concatenated in that order. -/
theorem freeze_of_verify_ok (p : Pwr) (hw : Hw) (g : Oracles) (fuel : Nat)
    (tv : List Event)
    (hv : verify_supply_configuration p (writePhase p hw).1 = (.ok (), tv)) :
    freeze p hw g fuel
      = ((scaleSeq p.enable_vos0 (writePhase p hw).1 g fuel).1,
         (scaleSeq p.enable_vos0 (writePhase p hw).1 g fuel).2.1,
         ((writePhase p hw).2 ++ tv)
           ++ (scaleSeq p.enable_vos0 (writePhase p hw).1 g fuel).2.2) := by
  simp only [freeze, hv]

/-- A panic of `freeze` is a failure of the verify phase, with the same
message. -/
theorem freeze_panic_verify (p : Pwr) (hw : Hw) (g : Oracles) (fuel : Nat)
    (msg : String) (h : (freeze p hw g fuel).1 = .panic msg) :
    (verify_supply_configuration p (writePhase p hw).1).1 = .error msg := by
  rcases hv : verify_supply_configuration p (writePhase p hw).1 with ⟨res, tv⟩
  cases res with
  | error e =>
      simp only [freeze, hv] at h
      simp at h
      simp [h]
  | ok u =>
      exfalso
      simp only [freeze, hv] at h
      exact scaleSeq_not_panic _ _ _ _ _ (by simpa using h)

/-- A pair whose first component is a passed verify result is the pair of its
components. -/
theorem verify_pair_of_fst (p : Pwr) (hw : Hw)
    (h : (verify_supply_configuration p hw).1 = .ok ()) :
    verify_supply_configuration p hw
      = (.ok (), (verify_supply_configuration p hw).2) := by
  rw [← h]

/-- A `freeze` call that returns passed the verify phase, and its outcome is
that of the scale sequence. -/
theorem freeze_ok_parts (p : Pwr) (hw : Hw) (g : Oracles) (fuel : Nat)
    (v : VoltageScale) (h : (freeze p hw g fuel).1 = .ok v) :
    (verify_supply_configuration p (writePhase p hw).1).1 = .ok ()
    ∧ (scaleSeq p.enable_vos0 (writePhase p hw).1 g fuel).1 = .ok v := by
  rcases hv : verify_supply_configuration p (writePhase p hw).1 with ⟨res, tv⟩
  cases res with
  | error e =>
      simp only [freeze, hv] at h
      simp at h
  | ok u =>
      constructor
      · rfl
      · simp only [freeze, hv] at h
        simpa using h

/-- C1: the spec promises that for every strategy except DefaultUnconfigured,
on hardware where reads return exactly what was last written, the write phase
followed by the verify phase succeeds with no assertion firing. The code
violates this for the SMPS-feeds-LDO strategies: the write phase stores
SDEN = 1, LDOEN = 1, SDLEVEL = 1 (resp. 2) and the mirror read-back returns
exactly that pattern, yet `verify_supply_configuration` asserts that LDOEN is
clear, so `freeze` panics with the CR3 verify message. -/
theorem c1_smps_feeds_ldo_verify_bug :
    (writePhase pSmps1v8 hwMirror).1.cr3.sden = true
    ∧ (writePhase pSmps1v8 hwMirror).1.cr3.ldoen = true
    ∧ (writePhase pSmps1v8 hwMirror).1.cr3.sdlevel = 1
    ∧ (freeze pSmps1v8 hwMirror gReady 1).1 = .panic cr3VerifyError
    ∧ (writePhase pSmps2v5 hwMirror).1.cr3.sden = true
    ∧ (writePhase pSmps2v5 hwMirror).1.cr3.ldoen = true
    ∧ (writePhase pSmps2v5 hwMirror).1.cr3.sdlevel = 2
    ∧ (freeze pSmps2v5 hwMirror gReady 1).1 = .panic cr3VerifyError :=
  ⟨rfl, rfl, rfl, rfl, rfl, rfl, rfl, rfl⟩

/-- C2 counterexample: the claim says that for the DefaultUnconfigured
strategy no write of any kind is issued to CR3, but the commit goes through
`cr3.modify`, which issues a write (of the value just read): the second event
of the trace is a CR3 write. -/
theorem c2_default_write_counterexample :
    (freeze pDefaultSel hwMirror gReady 1).2.2.get? 1
      = some (Event.writeCR3 hwMirror.cr3) := by rfl

/-- C2 (amended): for the DefaultUnconfigured strategy the commit's
read-modify-write of CR3 writes back exactly the value it read, leaving every
CR3 bit unchanged; the verify phase performs no check (no read, result ok)
and `freeze` can never panic for this strategy. -/
theorem c2_default_amended (b : Bool) (hw : Hw) (g : Oracles) (fuel : Nat) :
    (writePhase { supply_configuration := .Default, enable_vos0 := b } hw).2
        = [Event.readCR3 hw.cr3, Event.writeCR3 hw.cr3]
    ∧ (writePhase { supply_configuration := .Default, enable_vos0 := b } hw).1.cr3 = hw.cr3
    ∧ verify_supply_configuration { supply_configuration := .Default, enable_vos0 := b } hw
        = (.ok (), [])
    ∧ ((∃ v, (freeze { supply_configuration := .Default, enable_vos0 := b } hw g fuel).1
          = .ok v)
        ∨ (freeze { supply_configuration := .Default, enable_vos0 := b } hw g fuel).1
          = .hang) := by
  refine ⟨rfl, ?_, rfl, ?_⟩
  · by_cases hl : hw.cr3_locked <;> simp [writePhase, Hw.writeCR3, cr3WritePattern, hl]
  · have hv : verify_supply_configuration
        { supply_configuration := .Default, enable_vos0 := b }
        (writePhase { supply_configuration := .Default, enable_vos0 := b } hw).1
        = (.ok (), []) := rfl
    rw [freeze_of_verify_ok _ _ g fuel [] hv]
    rcases scaleSeq_classify b
        (writePhase { supply_configuration := .Default, enable_vos0 := b } hw).1 g fuel
      with hc | hc
    · exact Or.inl ⟨_, hc⟩
    · exact Or.inr hc

/-- C3 counterexample: the claim says the mismatch diagnostic names the
disagreeing register field and depends on the requested strategy, but two
mismatches on different strategies and different fields — LDO requested while
CR3 holds SDEN set (the SDEN assertion fails) and Bypass requested while CR3
holds BYPASS clear (the BYPASS assertion fails) — produce the identical fixed
message. -/
theorem c3_same_diagnostic_counterexample :
    (freeze pLdo hwLockedSden gReady 1).1 = .panic cr3VerifyError
    ∧ (freeze pBypassSel hwLockedClear gReady 1).1 = .panic cr3VerifyError :=
  ⟨rfl, rfl⟩

/-- C3 (amended): when the verify phase observes mismatching CR3 bits, commit
halts immediately, but with the one fixed diagnostic stating that the lower
byte of PWR.CR3 does not match the configured power mode and advising a
power-on reset; the message is the same for every mismatching field and
every requested strategy. -/
theorem c3_fixed_diagnostic (p : Pwr) (hw : Hw) (g : Oracles) (fuel : Nat)
    (msg : String) (h : (freeze p hw g fuel).1 = .panic msg) :
    msg = cr3VerifyError :=
  verify_error_eq p (writePhase p hw).1 msg (freeze_panic_verify p hw g fuel msg h)

/-- Witness for C3 at a concrete input: requesting LDO on hardware whose
write-once byte already holds SDEN set makes `freeze` panic, and the message
is the fixed one. -/
theorem c3_fixed_diagnostic_witness : cr3VerifyError = cr3VerifyError :=
  c3_fixed_diagnostic pLdo hwLockedSden gReady 1 cr3VerifyError (by rfl)

/-- C4: whenever commit returns a voltage scale, it is Scale0 exactly when
the overdrive flag (`enable_vos0`) was requested and Scale1 exactly when it
was not; Scale2 and Scale3 are never returned. -/
theorem c4_overdrive_determines_scale (p : Pwr) (hw : Hw) (g : Oracles)
    (fuel : Nat) (v : VoltageScale) (h : (freeze p hw g fuel).1 = .ok v) :
    (v = .Scale0 ↔ p.enable_vos0 = true) ∧ (v = .Scale1 ↔ p.enable_vos0 = false)
    ∧ v ≠ .Scale2 ∧ v ≠ .Scale3 := by
  rcases freeze_ok_parts p hw g fuel v h with ⟨hv, hs⟩
  have hres := scaleSeq_ok_result _ _ _ _ _ hs
  cases hb : p.enable_vos0 <;> simp_all

/-- Witness for C4 at a concrete input: committing the LDO strategy without
overdrive on mirror hardware returns Scale1. -/
theorem c4_overdrive_determines_scale_witness :
    (VoltageScale.Scale1 = .Scale0 ↔ pLdo.enable_vos0 = true)
    ∧ (VoltageScale.Scale1 = .Scale1 ↔ pLdo.enable_vos0 = false)
    ∧ VoltageScale.Scale1 ≠ .Scale2 ∧ VoltageScale.Scale1 ≠ .Scale3 :=
  c4_overdrive_determines_scale pLdo hwMirror gReady 1 .Scale1 (by rfl)

/-- C5: within one returning commit call, the trace is the CR3 read-modify-
write (the write-once commit), then the verify read-backs (CR3 reads only),
then the ACTVOSRDY polls, and only after a poll has observed the
domain-ready bit set (the last poll observation is `true`) does the D3CR
voltage-scale-selection write occur. -/
theorem c5_commit_ordering (p : Pwr) (hw : Hw) (g : Oracles) (fuel : Nat)
    (v : VoltageScale) (h : (freeze p hw g fuel).1 = .ok v) :
    ∃ (w : CR3) (vr : List Event) (obs : List Bool) (rest : List Event),
      (freeze p hw g fuel).2.2
        = Event.readCR3 hw.cr3 :: Event.writeCR3 w
            :: (vr ++ obs.map Event.pollActvosrdy ++ Event.writeD3CR 3 0 :: rest)
      ∧ (∀ e ∈ vr, ∃ r, e = Event.readCR3 r)
      ∧ obs.getLast? = some true := by
  rcases freeze_ok_parts p hw g fuel v h with ⟨hv1, hs⟩
  have hv := verify_pair_of_fst p (writePhase p hw).1 hv1
  rcases scaleSeq_ok_trace _ _ _ _ _ hs with ⟨obs, rest, htr, hlast⟩
  refine ⟨cr3WritePattern p.supply_configuration hw.cr3,
    (verify_supply_configuration p (writePhase p hw).1).2, obs, rest, ?_, ?_, hlast⟩
  · rw [freeze_of_verify_ok p hw g fuel _ hv]
    simp only [writePhase] at htr
    simp [writePhase, htr]
  · intro e he
    exact verify_events_read p (writePhase p hw).1 e he

/-- Witness for C5 at a concrete input: the LDO commit on mirror hardware
returns, and its trace decomposes as claimed. -/
theorem c5_commit_ordering_witness :
    ∃ (w : CR3) (vr : List Event) (obs : List Bool) (rest : List Event),
      (freeze pLdo hwMirror gReady 1).2.2
        = Event.readCR3 hwMirror.cr3 :: Event.writeCR3 w
            :: (vr ++ obs.map Event.pollActvosrdy ++ Event.writeD3CR 3 0 :: rest)
      ∧ (∀ e ∈ vr, ∃ r, e = Event.readCR3 r)
      ∧ obs.getLast? = some true :=
  c5_commit_ordering pLdo hwMirror gReady 1 .Scale1 (by rfl)

/-- C6: commit has exactly one external failure path. Every execution returns
a voltage scale, panics with the verify message, or is still blocked in a
poll loop; a panic can only arise from a verify-phase failure (with that
same message); and when every polled status bit becomes set within the fuel
and the verify phase passes, commit terminates and returns. -/
theorem c6_failure_paths :
    (∀ (p : Pwr) (hw : Hw) (g : Oracles) (fuel : Nat),
        (∃ v, (freeze p hw g fuel).1 = .ok v)
        ∨ (freeze p hw g fuel).1 = .panic cr3VerifyError
        ∨ (freeze p hw g fuel).1 = .hang)
    ∧ (∀ (p : Pwr) (hw : Hw) (g : Oracles) (fuel : Nat) (msg : String),
        (freeze p hw g fuel).1 = .panic msg →
          (verify_supply_configuration p (writePhase p hw).1).1 = .error msg)
    ∧ (∀ (p : Pwr) (hw : Hw) (g : Oracles) (fuel : Nat),
        (∃ n, n < fuel ∧ g.actSeq n = true) →
        (∃ n, n < fuel ∧ g.vosSeq n = true) →
        (∃ n, n < fuel ∧ g.odSeq n = true) →
        (verify_supply_configuration p (writePhase p hw).1).1 = .ok () →
        (freeze p hw g fuel).1 = .ok (if p.enable_vos0 then .Scale0 else .Scale1)) := by
  refine ⟨?_, ?_, ?_⟩
  · intro p hw g fuel
    cases hout : (freeze p hw g fuel).1 with
    | ok v => exact Or.inl ⟨v, rfl⟩
    | panic msg =>
        have herr := freeze_panic_verify p hw g fuel msg hout
        have hmsg := verify_error_eq p (writePhase p hw).1 msg herr
        exact Or.inr (Or.inl (by rw [hmsg]))
    | hang => exact Or.inr (Or.inr rfl)
  · exact freeze_panic_verify
  · intro p hw g fuel h1 h2 h3 hok
    have hv := verify_pair_of_fst p (writePhase p hw).1 hok
    rw [freeze_of_verify_ok p hw g fuel _ hv]
    exact scaleSeq_done _ _ _ _ h1 h2 h3

/-- Witness for C6 at a concrete input: with all status bits set from the
first poll and the verify phase passing for the LDO strategy on mirror
hardware, commit returns (Scale1, since overdrive is off). -/
theorem c6_failure_paths_witness :
    (freeze pLdo hwMirror gReady 1).1
      = .ok (if pLdo.enable_vos0 then VoltageScale.Scale0 else .Scale1) :=
  c6_failure_paths.2.2 pLdo hwMirror gReady 1
    ⟨0, Nat.one_pos, rfl⟩ ⟨0, Nat.one_pos, rfl⟩ ⟨0, Nat.one_pos, rfl⟩ (by rfl)

/-- C8: each builder method (the five strategy setters and the overdrive
request `vos0`) performs no hardware access (the hardware state is returned
untouched and the event trace is empty), cannot fail (it is a total function
returning a selector), sets exactly the requested strategy (respectively the
overdrive flag), and leaves the selector's other field unchanged. -/
theorem c8_builders_pure (p : Pwr) (hw : Hw) :
    ((p.ldo hw).1.supply_configuration = .LDOSupply
      ∧ (p.ldo hw).1.enable_vos0 = p.enable_vos0
      ∧ (p.ldo hw).2.1 = hw ∧ (p.ldo hw).2.2 = [])
    ∧ ((p.smps hw).1.supply_configuration = .DirectSMPS
      ∧ (p.smps hw).1.enable_vos0 = p.enable_vos0
      ∧ (p.smps hw).2.1 = hw ∧ (p.smps hw).2.2 = [])
    ∧ ((p.bypass hw).1.supply_configuration = .Bypass
      ∧ (p.bypass hw).1.enable_vos0 = p.enable_vos0
      ∧ (p.bypass hw).2.1 = hw ∧ (p.bypass hw).2.2 = [])
    ∧ ((p.smps_1v8_feeds_ldo hw).1.supply_configuration = .SMPSFeedsIntoLDO1V8
      ∧ (p.smps_1v8_feeds_ldo hw).1.enable_vos0 = p.enable_vos0
      ∧ (p.smps_1v8_feeds_ldo hw).2.1 = hw ∧ (p.smps_1v8_feeds_ldo hw).2.2 = [])
    ∧ ((p.smps_2v5_feeds_ldo hw).1.supply_configuration = .SMPSFeedsIntoLDO2V5
      ∧ (p.smps_2v5_feeds_ldo hw).1.enable_vos0 = p.enable_vos0
      ∧ (p.smps_2v5_feeds_ldo hw).2.1 = hw ∧ (p.smps_2v5_feeds_ldo hw).2.2 = [])
    ∧ ((p.vos0 hw).1.enable_vos0 = true
      ∧ (p.vos0 hw).1.supply_configuration = p.supply_configuration
      ∧ (p.vos0 hw).2.1 = hw ∧ (p.vos0 hw).2.2 = []) :=
  ⟨⟨rfl, rfl, rfl, rfl⟩, ⟨rfl, rfl, rfl, rfl⟩, ⟨rfl, rfl, rfl, rfl⟩,
   ⟨rfl, rfl, rfl, rfl⟩, ⟨rfl, rfl, rfl, rfl⟩, rfl, rfl, rfl, rfl⟩

/-- C9: on the single-core build, commit's CR3 write (the second trace event)
always carries the fixed pattern SCUEN = 1, LDOEN = 1, BYPASS = 0, whatever
the configuration and hardware state; there is no verify phase, so commit
never panics (it returns a scale or hangs in a poll loop). -/
theorem c9_singlecore_fixed_pattern (b : Bool) (hw : Hw) (g : Oracles)
    (fuel : Nat) :
    (freezeSingle b hw g fuel).2.2.get? 1
        = some (Event.writeCR3 (cr3WriteSingle hw.cr3))
    ∧ (cr3WriteSingle hw.cr3).scuen = true
    ∧ (cr3WriteSingle hw.cr3).ldoen = true
    ∧ (cr3WriteSingle hw.cr3).bypass = false
    ∧ ((∃ v, (freezeSingle b hw g fuel).1 = .ok v)
        ∨ (freezeSingle b hw g fuel).1 = .hang) := by
  refine ⟨rfl, rfl, rfl, rfl, ?_⟩
  rcases scaleSeq_classify b (hw.writeCR3 (cr3WriteSingle hw.cr3)) g fuel with hc | hc
  · exact Or.inl ⟨_, hc⟩
  · exact Or.inr hc

/-- C10: the scale-up request writes the whole D3CR register, not just the
VOS field: every D3CR write event in any commit trace carries VOS = 0b11 and
the reset value 0 for all other writable bits, and when commit returns, the
hardware's D3CR holds exactly that, regardless of the strategy and of D3CR's
prior contents. -/
theorem c10_d3cr_full_write (p : Pwr) (hw : Hw) (g : Oracles) (fuel : Nat) :
    (∀ a b, Event.writeD3CR a b ∈ (freeze p hw g fuel).2.2 → a = 3 ∧ b = 0)
    ∧ (∀ v, (freeze p hw g fuel).1 = .ok v →
        (freeze p hw g fuel).2.1.d3cr_vos = 3
        ∧ (freeze p hw g fuel).2.1.d3cr_rest = 0) := by
  constructor
  · intro a b hmem
    rcases hv : verify_supply_configuration p (writePhase p hw).1 with ⟨res, tv⟩
    cases res with
    | error e =>
        simp only [freeze, hv] at hmem
        rcases List.mem_append.mp hmem with hl | hl
        · simp [writePhase] at hl
        · rcases verify_events_read p (writePhase p hw).1 _
            (by rw [hv]; exact hl) with ⟨r, hr⟩
          simp at hr
    | ok u =>
        simp only [freeze, hv] at hmem
        rcases List.mem_append.mp hmem with hl | hl
        · rcases List.mem_append.mp hl with h2 | h2
          · simp [writePhase] at h2
          · rcases verify_events_read p (writePhase p hw).1 _
              (by rw [hv]; exact h2) with ⟨r, hr⟩
            simp at hr
        · exact scaleSeq_writeD3CR_mem _ _ _ _ a b hl
  · intro v hok
    rcases freeze_ok_parts p hw g fuel v hok with ⟨hv1, hs⟩
    have hhw := scaleSeq_ok_hw _ _ _ _ _ hs
    rw [freeze_of_verify_ok p hw g fuel _ (verify_pair_of_fst p (writePhase p hw).1 hv1)]
    exact hhw

/-- Witness for C10 at a concrete input: committing LDO on hardware whose
D3CR initially held VOS = 1 and nonzero other bits leaves D3CR with VOS = 3
and 0 elsewhere. -/
theorem c10_d3cr_full_write_witness :
    (freeze pLdo hwRest5 gReady 1).2.1.d3cr_vos = 3
    ∧ (freeze pLdo hwRest5 gReady 1).2.1.d3cr_rest = 0 :=
  (c10_d3cr_full_write pLdo hwRest5 gReady 1).2 .Scale1 (by rfl)
